import Mathlib

/-!
Verification of the equalizer coordination bridge
(`EqualizerControllerEngineImpl.cpp` from yunfeilu-dev/alexa-auto-sdk).

The bridge mediates equalizer band-level state between a device-local
audio platform endpoint and the AVS SDK equalizer manager.  We embed the
bridge's pure data flow: band/level conversion, range clamping, the
maps/sets handed to the manager and the platform endpoint, and the
construction / shutdown lifecycle as explicit state transitions.

Helper functions defined in the implementation header
(`EqualizerControllerEngineImpl.h`, not part of the excerpt) —
`convertBand`, `convertBandLevels`, `convertAndTruncateBandLevels`,
and the external-band conversion — are modelled from the specification
and are marked as such in their doc comments.
-/

/-- Platform-side equalizer band enumeration
(`aace::alexa::EqualizerController::EqualizerBand`). -/
inductive EqualizerBand where
  | BASS
  | MIDRANGE
  | TREBLE
deriving DecidableEq, Repr

/-- AVS-SDK-side equalizer band enumeration
(`alexaClientSDK::acsdkEqualizerInterfaces::EqualizerBand`). -/
inductive SdkEqualizerBand where
  | BASS
  | MIDRANGE
  | TREBLE
deriving DecidableEq, Repr

/-- A platform band/level pair (`EqualizerBandLevel`); the level is an
`int` in the implementation. -/
def EqualizerBandLevel : Type := EqualizerBand × Int

/-- The equalizer configuration component
(`SDKConfigEqualizerConfiguration`): the configured min/max band levels
and the supported-band set, loaded once at startup. -/
structure EqualizerConfiguration where
  minBandLevel : Int
  maxBandLevel : Int
  supportedBands : Finset SdkEqualizerBand

/-- `getMinimumBandLevel`: passthrough to the configuration. -/
def getMinimumBandLevel (cfg : EqualizerConfiguration) : Int :=
  cfg.minBandLevel

/-- `getMaximumBandLevel`: passthrough to the configuration. -/
def getMaximumBandLevel (cfg : EqualizerConfiguration) : Int :=
  cfg.maxBandLevel

/-- `truncateBandLevel` from the source: clamps the level into the
configured range when it falls outside of it, otherwise returns it
unchanged.  Returns the (possibly clamped) level. -/
def truncateBandLevel (cfg : EqualizerConfiguration) (bandLevel : EqualizerBand × Int) : Int :=
  if bandLevel.2 > getMaximumBandLevel cfg ∨ bandLevel.2 < getMinimumBandLevel cfg then
    min (max bandLevel.2 (getMinimumBandLevel cfg)) (getMaximumBandLevel cfg)
  else bandLevel.2

/-- The guard of the `AACE_WARN` diagnostic inside `truncateBandLevel`:
the warning is emitted exactly when the level falls outside the
configured range. -/
def truncateBandLevelWarns (cfg : EqualizerConfiguration) (bandLevel : EqualizerBand × Int) : Bool :=
  decide (bandLevel.2 > getMaximumBandLevel cfg ∨ bandLevel.2 < getMinimumBandLevel cfg)

lemma truncateBandLevel_eq_clamp (cfg : EqualizerConfiguration) (p : EqualizerBand × Int)
    (h : cfg.minBandLevel ≤ cfg.maxBandLevel) :
    truncateBandLevel cfg p = min (max p.2 cfg.minBandLevel) cfg.maxBandLevel := by
  simp only [truncateBandLevel, getMinimumBandLevel, getMaximumBandLevel, min_def, max_def]
  split_ifs <;> omega

lemma truncateBandLevel_mem (cfg : EqualizerConfiguration) (p : EqualizerBand × Int)
    (h : cfg.minBandLevel ≤ cfg.maxBandLevel) :
    cfg.minBandLevel ≤ truncateBandLevel cfg p ∧ truncateBandLevel cfg p ≤ cfg.maxBandLevel := by
  rw [truncateBandLevel_eq_clamp cfg p h, min_def, max_def]
  split_ifs <;> omega

/-- Claim C3: for every band/level pair and configured range `[lo, hi]`
with `lo ≤ hi`, `truncateBandLevel` returns exactly
`min (max level lo) hi`; an in-range level is returned unchanged, and
the diagnostic warning fires exactly when clamping changed the value. -/
theorem truncateBandLevel_clamps (cfg : EqualizerConfiguration) (p : EqualizerBand × Int)
    (h : cfg.minBandLevel ≤ cfg.maxBandLevel) :
    truncateBandLevel cfg p = min (max p.2 cfg.minBandLevel) cfg.maxBandLevel ∧
    (cfg.minBandLevel ≤ p.2 → p.2 ≤ cfg.maxBandLevel → truncateBandLevel cfg p = p.2) ∧
    (truncateBandLevelWarns cfg p = true ↔ truncateBandLevel cfg p ≠ p.2) := by
  refine ⟨truncateBandLevel_eq_clamp cfg p h, ?_, ?_⟩
  · intro h1 h2
    simp only [truncateBandLevel, getMinimumBandLevel, getMaximumBandLevel]
    split_ifs <;> omega
  · rw [truncateBandLevel_eq_clamp cfg p h]
    simp only [truncateBandLevelWarns, getMinimumBandLevel, getMaximumBandLevel, min_def, max_def,
      decide_eq_true_eq]
    split_ifs <;> omega

/-- Witness for C3 at range `[-6, 6]` and input `(BASS, 10)`. -/
theorem truncateBandLevel_clamps_witness :
    (-6 : Int) ≤ 6 ∧
    (truncateBandLevel ⟨-6, 6, ∅⟩ (EqualizerBand.BASS, 10) =
        min (max (10 : Int) (-6)) 6 ∧
      ((-6 : Int) ≤ 10 → (10 : Int) ≤ 6 →
        truncateBandLevel ⟨-6, 6, ∅⟩ (EqualizerBand.BASS, 10) = 10) ∧
      (truncateBandLevelWarns ⟨-6, 6, ∅⟩ (EqualizerBand.BASS, 10) = true ↔
        truncateBandLevel ⟨-6, 6, ∅⟩ (EqualizerBand.BASS, 10) ≠ 10)) :=
  ⟨by decide, truncateBandLevel_clamps ⟨-6, 6, ∅⟩ (EqualizerBand.BASS, 10) (by decide)⟩

/-- Claim C9: clamping is idempotent and its result always lies in the
configured range `[lo, hi]` whenever `lo ≤ hi`. -/
theorem truncateBandLevel_idempotent_mem (cfg : EqualizerConfiguration)
    (b : EqualizerBand) (l : Int) (h : cfg.minBandLevel ≤ cfg.maxBandLevel) :
    truncateBandLevel cfg (b, truncateBandLevel cfg (b, l)) = truncateBandLevel cfg (b, l) ∧
    cfg.minBandLevel ≤ truncateBandLevel cfg (b, l) ∧
    truncateBandLevel cfg (b, l) ≤ cfg.maxBandLevel := by
  have hm := truncateBandLevel_mem cfg (b, l) h
  refine ⟨?_, hm⟩
  rw [truncateBandLevel_eq_clamp cfg _ h, truncateBandLevel_eq_clamp cfg _ h] at *
  rw [min_def, max_def] at *
  split_ifs at * <;> omega

/-- Witness for C9 at range `[-6, 6]` and level `99`. -/
theorem truncateBandLevel_idempotent_mem_witness :
    (-6 : Int) ≤ 6 ∧
    (truncateBandLevel ⟨-6, 6, ∅⟩
        (EqualizerBand.BASS, truncateBandLevel ⟨-6, 6, ∅⟩ (EqualizerBand.BASS, 99)) =
        truncateBandLevel ⟨-6, 6, ∅⟩ (EqualizerBand.BASS, 99) ∧
      (-6 : Int) ≤ truncateBandLevel ⟨-6, 6, ∅⟩ (EqualizerBand.BASS, 99) ∧
      truncateBandLevel ⟨-6, 6, ∅⟩ (EqualizerBand.BASS, 99) ≤ 6) :=
  ⟨by decide, truncateBandLevel_idempotent_mem ⟨-6, 6, ∅⟩ EqualizerBand.BASS 99 (by decide)⟩

/-- Modelled from the spec: `convertBand` from the implementation header
(absent from the excerpt) maps a platform band identifier to the AVS SDK
band enumeration; it is total on the closed platform enumeration. -/
def convertBand (band : EqualizerBand) : SdkEqualizerBand :=
  match band with
  | .BASS => .BASS
  | .MIDRANGE => .MIDRANGE
  | .TREBLE => .TREBLE

/-- Modelled from the spec: `convertBandLevels` from the implementation
header converts every platform band/level pair to the SDK
representation, preserving input order and leaving the numeric level
values untouched. -/
def convertBandLevels (bandLevels : List (EqualizerBand × Int)) :
    List (SdkEqualizerBand × Int) :=
  bandLevels.map (fun p => (convertBand p.1, p.2))

/-- Modelled from the spec: `convertAndTruncateBandLevels` from the
implementation header builds an SDK band-level map by converting each
entry's band and clamping its level with `truncateBandLevel`; duplicate
bands overwrite earlier entries (last write wins).  The map is embedded
as a partial lookup function. -/
def convertAndTruncateBandLevels (cfg : EqualizerConfiguration)
    (bandLevels : List (EqualizerBand × Int)) : SdkEqualizerBand → Option Int :=
  bandLevels.foldl
    (fun m p => fun b => if b = convertBand p.1 then some (truncateBandLevel cfg p) else m b)
    (fun _ => none)

/-- Reference formulation (from the spec's words): the level of the last
input entry whose converted band equals `b`, if any. -/
def lastConvertedLevel (bandLevels : List (EqualizerBand × Int)) (b : SdkEqualizerBand) :
    Option Int :=
  ((bandLevels.filter (fun p => convertBand p.1 == b)).getLast?).map Prod.snd

lemma convertAndTruncateBandLevels_lookup (cfg : EqualizerConfiguration)
    (bandLevels : List (EqualizerBand × Int)) (b : SdkEqualizerBand)
    (h : cfg.minBandLevel ≤ cfg.maxBandLevel) :
    convertAndTruncateBandLevels cfg bandLevels b =
      (lastConvertedLevel bandLevels b).map
        (fun l => min (max l cfg.minBandLevel) cfg.maxBandLevel) := by
  induction bandLevels using List.reverseRecOn with
  | nil => simp [convertAndTruncateBandLevels, lastConvertedLevel]
  | append_singleton xs x ih =>
    simp only [convertAndTruncateBandLevels, List.foldl_append, List.foldl_cons,
      List.foldl_nil] at *
    simp only [lastConvertedLevel, List.filter_append, List.filter_cons, List.filter_nil] at *
    by_cases hb : b = convertBand x.1
    · subst hb
      simp [truncateBandLevel_eq_clamp cfg x h]
    · have hb' : (convertBand x.1 == b) = false := by
        simp only [beq_eq_false_iff_ne, ne_eq]
        exact fun hc => hb hc.symm
      simp only [hb', if_neg hb, Bool.false_eq_true, if_false, List.append_nil]
      exact ih

lemma convertAndTruncateBandLevels_range (cfg : EqualizerConfiguration)
    (bandLevels : List (EqualizerBand × Int)) (b : SdkEqualizerBand) (l : Int)
    (h : cfg.minBandLevel ≤ cfg.maxBandLevel)
    (hl : convertAndTruncateBandLevels cfg bandLevels b = some l) :
    cfg.minBandLevel ≤ l ∧ l ≤ cfg.maxBandLevel := by
  rw [convertAndTruncateBandLevels_lookup cfg bandLevels b h] at hl
  rcases Option.map_eq_some'.mp hl with ⟨a, _, rfl⟩
  rw [min_def, max_def]
  split_ifs <;> omega

lemma convertBandLevels_snd (bandLevels : List (EqualizerBand × Int)) :
    (convertBandLevels bandLevels).map Prod.snd = bandLevels.map Prod.snd := by
  simp [convertBandLevels]

/-- A call issued by the bridge to the AVS SDK `EqualizerController`
(the Equalizer Manager), with its payload. -/
inductive ManagerCall where
  | setBandLevels (levels : SdkEqualizerBand → Option Int)
  | adjustBandLevels (levels : List (SdkEqualizerBand × Int))
  | resetBands (bands : Finset SdkEqualizerBand)

/-- `onLocalSetBandLevels` from the source: converts and truncates the
platform band levels and forwards the resulting map to the Manager's
`setBandLevels`. -/
def onLocalSetBandLevels (cfg : EqualizerConfiguration)
    (bandLevels : List (EqualizerBand × Int)) : ManagerCall :=
  .setBandLevels (convertAndTruncateBandLevels cfg bandLevels)

/-- `onLocalAdjustBandLevels` from the source: converts the platform
band adjustments (without truncation) and forwards them to the
Manager's `adjustBandLevels`. -/
def onLocalAdjustBandLevels (bandAdjustments : List (EqualizerBand × Int)) : ManagerCall :=
  .adjustBandLevels (convertBandLevels bandAdjustments)

/-- `onLocalResetBands` from the source: an empty request resets all
supported bands from the configuration; otherwise the requested bands
are converted and collected into a set which is forwarded to the
Manager's `resetBands`. -/
def onLocalResetBands (cfg : EqualizerConfiguration) (bands : List EqualizerBand) : ManagerCall :=
  if bands.length = 0 then .resetBands cfg.supportedBands
  else .resetBands (bands.foldl (fun s b => insert (convertBand b) s) ∅)

/-- Equalizer mode marker of the AVS SDK
(`acsdkEqualizerInterfaces::EqualizerMode`). -/
inductive EqualizerMode where
  | NONE
  | MOVIE
  | MUSIC
  | NIGHT
  | SPORT
  | TV
deriving DecidableEq, Repr

/-- `acsdkEqualizerInterfaces::EqualizerState`: a band-level map
together with a mode marker. -/
structure EqualizerState where
  bandLevels : SdkEqualizerBand → Option Int
  mode : EqualizerMode

/-- `avsCommon::utils::error::SuccessResult`: a success carrying a
value, or a failure. -/
inductive SuccessResult (α : Type) where
  | success (value : α)
  | failure

/-- The external world visible to the bridge's state callbacks: the
current band levels reported by the Platform Audio Endpoint's
`getBandLevels`, and (modelled from the spec) the contents of a
persistent store the bridge deliberately never uses. -/
structure BridgeEnv where
  platformBandLevels : List (EqualizerBand × Int)
  persistedState : Option EqualizerState

/-- `loadState` from the source: reads the current levels from the
Platform Audio Endpoint, converts and truncates them to the configured
range, fixes the mode to `NONE`, and returns a success result.  The
persistent store in the environment is never consulted. -/
def loadState (cfg : EqualizerConfiguration) (env : BridgeEnv) : SuccessResult EqualizerState :=
  .success ⟨convertAndTruncateBandLevels cfg env.platformBandLevels, .NONE⟩

/-- Claim C1: `onLocalSetBandLevels` hands the Manager a map whose
levels are the converted inputs clamped into the configured range
(last write per band wins), while `onLocalAdjustBandLevels` hands the
Manager the converted deltas with their numeric values untouched. -/
theorem onLocal_set_adjust_asymmetry (cfg : EqualizerConfiguration)
    (bandLevels bandAdjustments : List (EqualizerBand × Int))
    (h : cfg.minBandLevel ≤ cfg.maxBandLevel) :
    (∃ m, onLocalSetBandLevels cfg bandLevels = .setBandLevels m ∧
      (∀ b, m b = (lastConvertedLevel bandLevels b).map
          (fun l => min (max l cfg.minBandLevel) cfg.maxBandLevel)) ∧
      (∀ b l, m b = some l → cfg.minBandLevel ≤ l ∧ l ≤ cfg.maxBandLevel)) ∧
    (∃ ds, onLocalAdjustBandLevels bandAdjustments = .adjustBandLevels ds ∧
      ds.map Prod.snd = bandAdjustments.map Prod.snd ∧
      ds.map Prod.fst = bandAdjustments.map (fun p => convertBand p.1)) := by
  refine ⟨⟨convertAndTruncateBandLevels cfg bandLevels, rfl, ?_, ?_⟩,
    ⟨convertBandLevels bandAdjustments, rfl, convertBandLevels_snd bandAdjustments, ?_⟩⟩
  · intro b
    exact convertAndTruncateBandLevels_lookup cfg bandLevels b h
  · intro b l hl
    exact convertAndTruncateBandLevels_range cfg bandLevels b l h hl
  · simp [convertBandLevels]

/-- The configuration used by the concrete witnesses: range `[-6, 6]`
with all three bands supported. -/
def witnessConfig : EqualizerConfiguration :=
  ⟨-6, 6, {SdkEqualizerBand.BASS, SdkEqualizerBand.MIDRANGE, SdkEqualizerBand.TREBLE}⟩

/-- Witness for C1 at range `[-6, 6]`, set input `[(BASS, 10)]` and
adjust input `[(BASS, 10)]`. -/
theorem onLocal_set_adjust_asymmetry_witness :
    (-6 : Int) ≤ 6 ∧
    ((∃ m, onLocalSetBandLevels witnessConfig [(EqualizerBand.BASS, 10)] = .setBandLevels m ∧
      (∀ b, m b = (lastConvertedLevel [(EqualizerBand.BASS, 10)] b).map
          (fun l => min (max l witnessConfig.minBandLevel) witnessConfig.maxBandLevel)) ∧
      (∀ b l, m b = some l →
        witnessConfig.minBandLevel ≤ l ∧ l ≤ witnessConfig.maxBandLevel)) ∧
    (∃ ds, onLocalAdjustBandLevels [(EqualizerBand.BASS, 10)] = .adjustBandLevels ds ∧
      ds.map Prod.snd = [(EqualizerBand.BASS, (10 : Int))].map Prod.snd ∧
      ds.map Prod.fst = [(EqualizerBand.BASS, (10 : Int))].map (fun p => convertBand p.1))) :=
  ⟨by decide,
    onLocal_set_adjust_asymmetry witnessConfig [(EqualizerBand.BASS, 10)]
      [(EqualizerBand.BASS, 10)] (by decide)⟩

/-- Claim C2: `loadState` always returns a success whose band-level map
holds the platform levels converted and clamped into the configured
range and whose mode is `NONE`; it never returns a failure, and its
result does not depend on the persistent store. -/
theorem loadState_success_clamped (cfg : EqualizerConfiguration) (env env' : BridgeEnv)
    (h : cfg.minBandLevel ≤ cfg.maxBandLevel)
    (henv : env.platformBandLevels = env'.platformBandLevels) :
    (∃ st, loadState cfg env = .success st ∧ st.mode = .NONE ∧
      (∀ b, st.bandLevels b = (lastConvertedLevel env.platformBandLevels b).map
          (fun l => min (max l cfg.minBandLevel) cfg.maxBandLevel)) ∧
      (∀ b l, st.bandLevels b = some l → cfg.minBandLevel ≤ l ∧ l ≤ cfg.maxBandLevel)) ∧
    loadState cfg env ≠ .failure ∧
    loadState cfg env = loadState cfg env' := by
  refine ⟨⟨⟨convertAndTruncateBandLevels cfg env.platformBandLevels, .NONE⟩, rfl, rfl, ?_, ?_⟩,
    ?_, ?_⟩
  · intro b
    exact convertAndTruncateBandLevels_lookup cfg env.platformBandLevels b h
  · intro b l hl
    exact convertAndTruncateBandLevels_range cfg env.platformBandLevels b l h hl
  · exact fun hc => SuccessResult.noConfusion hc
  · simp only [loadState, henv]

/-- Witness for C2 at range `[-6, 6]` with platform levels
`[(BASS, 99)]` and two environments differing only in the store. -/
theorem loadState_success_clamped_witness :
    ((-6 : Int) ≤ 6 ∧
      (BridgeEnv.mk [(EqualizerBand.BASS, 99)] none).platformBandLevels =
        (BridgeEnv.mk [(EqualizerBand.BASS, 99)]
          (some ⟨fun _ => none, EqualizerMode.MUSIC⟩)).platformBandLevels) ∧
    ((∃ st, loadState witnessConfig (BridgeEnv.mk [(EqualizerBand.BASS, 99)] none) =
        .success st ∧ st.mode = .NONE ∧
      (∀ b, st.bandLevels b = (lastConvertedLevel [(EqualizerBand.BASS, 99)] b).map
          (fun l => min (max l witnessConfig.minBandLevel) witnessConfig.maxBandLevel)) ∧
      (∀ b l, st.bandLevels b = some l →
        witnessConfig.minBandLevel ≤ l ∧ l ≤ witnessConfig.maxBandLevel)) ∧
    loadState witnessConfig (BridgeEnv.mk [(EqualizerBand.BASS, 99)] none) ≠ .failure ∧
    loadState witnessConfig (BridgeEnv.mk [(EqualizerBand.BASS, 99)] none) =
      loadState witnessConfig (BridgeEnv.mk [(EqualizerBand.BASS, 99)]
        (some ⟨fun _ => none, EqualizerMode.MUSIC⟩))) :=
  ⟨⟨by decide, rfl⟩,
    loadState_success_clamped witnessConfig
      (BridgeEnv.mk [(EqualizerBand.BASS, 99)] none)
      (BridgeEnv.mk [(EqualizerBand.BASS, 99)] (some ⟨fun _ => none, EqualizerMode.MUSIC⟩))
      (by decide) rfl⟩

/-- Claim C8: every level the bridge itself hands to observers — the
map given to the Manager's `setBandLevels` by `onLocalSetBandLevels`,
and the state returned by `loadState` — lies in the configured range
`[minLevel, maxLevel]` whenever `minLevel ≤ maxLevel`. -/
theorem bridge_range_invariant (cfg : EqualizerConfiguration)
    (bandLevels : List (EqualizerBand × Int)) (env : BridgeEnv)
    (h : cfg.minBandLevel ≤ cfg.maxBandLevel) :
    (∀ m, onLocalSetBandLevels cfg bandLevels = .setBandLevels m →
      ∀ b l, m b = some l → cfg.minBandLevel ≤ l ∧ l ≤ cfg.maxBandLevel) ∧
    (∀ st, loadState cfg env = .success st →
      ∀ b l, st.bandLevels b = some l → cfg.minBandLevel ≤ l ∧ l ≤ cfg.maxBandLevel) := by
  constructor
  · intro m hm b l hl
    have hm' : convertAndTruncateBandLevels cfg bandLevels = m := by
      injection hm
    rw [← hm'] at hl
    exact convertAndTruncateBandLevels_range cfg bandLevels b l h hl
  · intro st hst b l hl
    have hst' : (⟨convertAndTruncateBandLevels cfg env.platformBandLevels,
        EqualizerMode.NONE⟩ : EqualizerState) = st := by
      injection hst
    rw [← hst'] at hl
    exact convertAndTruncateBandLevels_range cfg env.platformBandLevels b l h hl

/-- Witness for C8 at range `[-6, 6]` with local input `[(TREBLE, -20)]`
and platform levels `[(BASS, 99)]`. -/
theorem bridge_range_invariant_witness :
    (-6 : Int) ≤ 6 ∧
    ((∀ m, onLocalSetBandLevels witnessConfig [(EqualizerBand.TREBLE, -20)] = .setBandLevels m →
      ∀ b l, m b = some l →
        witnessConfig.minBandLevel ≤ l ∧ l ≤ witnessConfig.maxBandLevel) ∧
    (∀ st, loadState witnessConfig (BridgeEnv.mk [(EqualizerBand.BASS, 99)] none) =
        .success st →
      ∀ b l, st.bandLevels b = some l →
        witnessConfig.minBandLevel ≤ l ∧ l ≤ witnessConfig.maxBandLevel)) :=
  ⟨by decide,
    bridge_range_invariant witnessConfig [(EqualizerBand.TREBLE, -20)]
      (BridgeEnv.mk [(EqualizerBand.BASS, 99)] none) (by decide)⟩

lemma mem_foldl_insertConvert (bands : List EqualizerBand) (acc : Finset SdkEqualizerBand)
    (sb : SdkEqualizerBand) :
    sb ∈ bands.foldl (fun s b => insert (convertBand b) s) acc ↔
      sb ∈ acc ∨ ∃ b ∈ bands, convertBand b = sb := by
  induction bands generalizing acc with
  | nil => simp
  | cons a l ih =>
    simp only [List.foldl_cons, ih, Finset.mem_insert, List.mem_cons]
    constructor
    · rintro ((h1 | h2) | ⟨b, hb, h3⟩)
      · exact Or.inr ⟨a, Or.inl rfl, h1.symm⟩
      · exact Or.inl h2
      · exact Or.inr ⟨b, Or.inr hb, h3⟩
    · rintro (h2 | ⟨b, hb | hb, h3⟩)
      · exact Or.inl (Or.inr h2)
      · subst hb
        exact Or.inl (Or.inl h3.symm)
      · exact Or.inr ⟨b, hb, h3⟩

/-- Claim C4: `onLocalResetBands` with an empty request submits the full
supported-band set from the configuration to the Manager's `resetBands`;
with a non-empty request it submits exactly the set of converted
requested bands, duplicates coalesced. -/
theorem onLocalResetBands_empty_all (cfg : EqualizerConfiguration)
    (bands : List EqualizerBand) :
    (bands = [] → onLocalResetBands cfg bands = .resetBands cfg.supportedBands) ∧
    (bands ≠ [] → ∃ s, onLocalResetBands cfg bands = .resetBands s ∧
      ∀ sb, sb ∈ s ↔ ∃ b ∈ bands, convertBand b = sb) := by
  constructor
  · intro hb
    subst hb
    rfl
  · intro hb
    have hl : ¬ bands.length = 0 := by
      simpa [List.length_eq_zero] using hb
    refine ⟨bands.foldl (fun s b => insert (convertBand b) s) ∅, ?_, ?_⟩
    · rw [onLocalResetBands, if_neg hl]
    · intro sb
      rw [mem_foldl_insertConvert]
      simp

/-- Witness for C4 with the empty request and the request `[TREBLE]`. -/
theorem onLocalResetBands_empty_all_witness :
    (onLocalResetBands witnessConfig [] = .resetBands witnessConfig.supportedBands) ∧
    (([EqualizerBand.TREBLE] : List EqualizerBand) ≠ [] ∧
      ∃ s, onLocalResetBands witnessConfig [EqualizerBand.TREBLE] = .resetBands s ∧
        ∀ sb, sb ∈ s ↔ ∃ b ∈ [EqualizerBand.TREBLE], convertBand b = sb) :=
  ⟨(onLocalResetBands_empty_all witnessConfig []).1 rfl,
    by decide,
    (onLocalResetBands_empty_all witnessConfig [EqualizerBand.TREBLE]).2 (by decide)⟩

/-- Modelled from the spec: conversion of an externally-sourced band
identifier (vendor-defined representation, embedded as a natural
number) to a platform band.  Identifiers outside the recognized set
fail with a conversion fault, embedded as `none`. -/
def convertExternalBand (bandId : Nat) : Option EqualizerBand :=
  match bandId with
  | 0 => some EqualizerBand.BASS
  | 1 => some EqualizerBand.MIDRANGE
  | 2 => some EqualizerBand.TREBLE
  | _ => none

/-- Modelled from the spec: `convertMap` over an externally pushed
band-level map — each well-formed entry is converted with its numeric
value untouched, and a malformed entry's conversion fault is logged and
swallowed (the entry is dropped while the rest proceed). -/
def convertExternalBandLevels (extLevels : List (Nat × Int)) : List (EqualizerBand × Int) :=
  extLevels.filterMap (fun p => (convertExternalBand p.1).map (fun b => (b, p.2)))

/-- A call issued by the bridge to the Platform Audio Endpoint. -/
inductive PlatformCall where
  | setBandLevels (levels : List (EqualizerBand × Int))
deriving DecidableEq, Repr

/-- `setEqualizerBandLevels` from the source: the remote-push handler —
converts the pushed map (no truncation) and forwards the result to the
Platform Audio Endpoint's `setBandLevels`. -/
def setEqualizerBandLevels (extLevels : List (Nat × Int)) : PlatformCall :=
  .setBandLevels (convertExternalBandLevels extLevels)

lemma convertExternalBandLevels_eq (extLevels : List (Nat × Int)) :
    convertExternalBandLevels extLevels =
      (extLevels.filter (fun p => (convertExternalBand p.1).isSome)).map
        (fun p => ((convertExternalBand p.1).getD EqualizerBand.BASS, p.2)) := by
  induction extLevels with
  | nil => rfl
  | cons x xs ih =>
    simp only [convertExternalBandLevels, List.filterMap_cons, List.filter_cons] at *
    cases hx : convertExternalBand x.1 with
    | none => simpa [hx] using ih
    | some b => simpa [hx] using ih

/-- Claim C7: the remote-push handler forwards the converted levels to
the Platform Audio Endpoint with their numeric values unchanged (no
truncation); a malformed entry is dropped inside the handler (the
handler is total — the fault never propagates) while every well-formed
entry is still applied. -/
theorem setEqualizerBandLevels_swallows (extLevels : List (Nat × Int)) :
    ∃ out, setEqualizerBandLevels extLevels = .setBandLevels out ∧
      out.map Prod.snd =
        (extLevels.filter (fun p => (convertExternalBand p.1).isSome)).map Prod.snd ∧
      (∀ p ∈ extLevels, ∀ b, convertExternalBand p.1 = some b → (b, p.2) ∈ out) ∧
      (∀ q ∈ out, ∃ p ∈ extLevels, convertExternalBand p.1 = some q.1 ∧ q.2 = p.2) := by
  refine ⟨convertExternalBandLevels extLevels, rfl, ?_, ?_, ?_⟩
  · rw [convertExternalBandLevels_eq]
    simp
  · intro p hp b hb
    simp only [convertExternalBandLevels, List.mem_filterMap]
    exact ⟨p, hp, by simp [hb]⟩
  · intro q hq
    simp only [convertExternalBandLevels, List.mem_filterMap] at hq
    rcases hq with ⟨p, hp, hpq⟩
    cases hx : convertExternalBand p.1 with
    | none => simp [hx] at hpq
    | some b =>
      simp only [hx, Option.map_some', Option.some.injEq] at hpq
      subst hpq
      exact ⟨p, hp, hx, rfl⟩

/-- Witness for C7 on a push holding a well-formed entry, a malformed
entry (unknown band identifier 7), and another well-formed entry. -/
theorem setEqualizerBandLevels_swallows_witness :
    ∃ out, setEqualizerBandLevels [(0, 3), (7, 5), (2, -9)] = .setBandLevels out ∧
      out.map Prod.snd =
        (([(0, 3), (7, 5), (2, -9)] : List (Nat × Int)).filter
          (fun p => (convertExternalBand p.1).isSome)).map Prod.snd ∧
      (∀ p ∈ ([(0, 3), (7, 5), (2, -9)] : List (Nat × Int)), ∀ b,
        convertExternalBand p.1 = some b → (b, p.2) ∈ out) ∧
      (∀ q ∈ out, ∃ p ∈ ([(0, 3), (7, 5), (2, -9)] : List (Nat × Int)),
        convertExternalBand p.1 = some q.1 ∧ q.2 = p.2) :=
  setEqualizerBandLevels_swallows [(0, 3), (7, 5), (2, -9)]

/-- The bridge's member references and registration status, embedded as
presence flags: `platformInterface` models
`m_equalizerPlatformInterface`, `engineInterfaceSet` models the
platform's engine-interface callback target, `configuration`,
`equalizerController` and `capabilityAgent` model the corresponding
member pointers, `capabilityAgentShutdown` records that the Capability
Agent's own shutdown has been invoked, and the two registration flags
record the `withCapability` / `registerEqualizer` calls. -/
structure BridgeState where
  platformInterface : Bool
  engineInterfaceSet : Bool
  configuration : Bool
  equalizerController : Bool
  capabilityAgent : Bool
  capabilityAgentShutdown : Bool
  registeredWithRegistrar : Bool
  registeredWithController : Bool
deriving DecidableEq, Repr

/-- Observable teardown steps of `doShutdown`, in the order they are
issued. -/
inductive ShutdownEvent where
  | clearEngineInterface
  | unregisterEqualizer
  | shutdownCapabilityAgent
deriving DecidableEq, Repr

/-- `doShutdown` from the source: clears the platform's engine
interface (when the platform reference is non-null), then unregisters
from the Equalizer Manager and resets that reference (when non-null),
then shuts the Capability Agent down (when non-null).  Returns the new
state and the ordered trace of teardown steps. -/
def doShutdown (s : BridgeState) : BridgeState × List ShutdownEvent :=
  let r1 :=
    if s.platformInterface then
      ({ s with engineInterfaceSet := false }, [ShutdownEvent.clearEngineInterface])
    else (s, [])
  let r2 :=
    if r1.1.equalizerController then
      ({ r1.1 with registeredWithController := false, equalizerController := false },
        r1.2 ++ [ShutdownEvent.unregisterEqualizer])
    else r1
  if r2.1.capabilityAgent then
    ({ r2.1 with capabilityAgentShutdown := true },
      r2.2 ++ [ShutdownEvent.shutdownCapabilityAgent])
  else r2

/-- Claim C5: on a fully active bridge, shutdown performs exactly the
three teardown steps in the order clear-engine-interface, then
unregister-from-Manager, then Capability-Agent shutdown; a second
shutdown after a completed one is total (it cannot throw) and the
Manager unregistration happens at most once over both calls. -/
theorem doShutdown_order_idempotent (s : BridgeState)
    (hp : s.platformInterface = true) (hc : s.equalizerController = true)
    (ha : s.capabilityAgent = true) :
    (doShutdown s).2 =
      [ShutdownEvent.clearEngineInterface, ShutdownEvent.unregisterEqualizer,
        ShutdownEvent.shutdownCapabilityAgent] ∧
    ((doShutdown s).2 ++ (doShutdown (doShutdown s).1).2).count
      ShutdownEvent.unregisterEqualizer = 1 := by
  rcases s with ⟨p, e, c, q, a, g, r1, r2⟩
  simp only at hp hc ha
  subst hp hc ha
  constructor
  · rfl
  · rfl

/-- Witness for C5 on the fully active bridge state. -/
theorem doShutdown_order_idempotent_witness :
    ((BridgeState.mk true true true true true false true true).platformInterface = true ∧
      (BridgeState.mk true true true true true false true true).equalizerController = true ∧
      (BridgeState.mk true true true true true false true true).capabilityAgent = true) ∧
    ((doShutdown (BridgeState.mk true true true true true false true true)).2 =
      [ShutdownEvent.clearEngineInterface, ShutdownEvent.unregisterEqualizer,
        ShutdownEvent.shutdownCapabilityAgent] ∧
    ((doShutdown (BridgeState.mk true true true true true false true true)).2 ++
      (doShutdown (doShutdown (BridgeState.mk true true true true true false true true)).1).2).count
      ShutdownEvent.unregisterEqualizer = 1) :=
  ⟨by decide,
    doShutdown_order_idempotent (BridgeState.mk true true true true true false true true)
      rfl rfl rfl⟩

/-- Nullness of the six dependency references passed to the bridge's
initialization. -/
structure InitDeps where
  capabilitiesRegistrarNull : Bool
  capabilitiesDelegateNull : Bool
  customerDataManagerNull : Bool
  exceptionEncounteredSenderNull : Bool
  contextManagerNull : Bool
  messageSenderNull : Bool
deriving DecidableEq, Repr

/-- Outcomes of the external factories invoked during initialization:
`SDKConfigEqualizerConfiguration::create`, `EqualizerController::create`
and `EqualizerCapabilityAgent::create`. -/
structure InitEnv where
  configCreateFails : Bool
  controllerCreateFails : Bool
  capabilityAgentCreateFails : Bool
deriving DecidableEq, Repr

/-- `initialize` from the source: checks the capabilities registrar and
delegate for null, then creates the configuration, the Equalizer
Manager and the Capability Agent in order, registers the capability and
the bridge, and reports success; any failure aborts with `false`,
leaving exactly the sub-components created so far. -/
def initializeBridge (deps : InitDeps) (env : InitEnv) (s : BridgeState) : Bool × BridgeState :=
  if deps.capabilitiesRegistrarNull then (false, s)
  else if deps.capabilitiesDelegateNull then (false, s)
  else if env.configCreateFails then (false, s)
  else
    let s1 := { s with configuration := true }
    if env.controllerCreateFails then (false, s1)
    else
      let s2 := { s1 with equalizerController := true }
      if env.capabilityAgentCreateFails then (false, s2)
      else
        (true,
          { s2 with
            capabilityAgent := true
            registeredWithRegistrar := true
            registeredWithController := true })

/-- The observable outcome of the `create` factory: the bridge handed
to the caller (if any), whether the rollback shutdown ran, and the
final state of the constructed bridge object (if one was constructed). -/
structure CreateOutcome where
  result : Option BridgeState
  shutdownInvoked : Bool
  finalState : Option BridgeState
deriving DecidableEq, Repr

/-- `create` from the source: fails on a null platform interface;
otherwise constructs the bridge, runs `initialize`, and on success sets
the platform's engine-interface reference and returns the bridge.  On
an initialization failure the constructed bridge is shut down before
`nullptr` is returned. -/
def create (platformInterfaceNull : Bool) (deps : InitDeps) (env : InitEnv) : CreateOutcome :=
  if platformInterfaceNull then ⟨none, false, none⟩
  else
    let s0 : BridgeState := ⟨true, false, false, false, false, false, false, false⟩
    let r := initializeBridge deps env s0
    if r.1 then
      let s := { r.2 with engineInterfaceSet := true }
      ⟨some s, false, some s⟩
    else
      ⟨none, true, some (doShutdown r.2).1⟩

/-- Claim C6: `create` hands back a bridge exactly when the platform
interface is non-null and every initialization step succeeded; on any
failure after the bridge object was constructed, the teardown path runs
before returning and leaves no live Manager reference; and a returned
bridge is always fully initialized and registered. -/
theorem create_rollback (pNull : Bool) (deps : InitDeps) (env : InitEnv) :
    ((create pNull deps env).result.isSome = true ↔
      (pNull = false ∧ deps.capabilitiesRegistrarNull = false ∧
        deps.capabilitiesDelegateNull = false ∧ env.configCreateFails = false ∧
        env.controllerCreateFails = false ∧ env.capabilityAgentCreateFails = false)) ∧
    ((create pNull deps env).result = none → pNull = false →
      (create pNull deps env).shutdownInvoked = true ∧
      ∀ s, (create pNull deps env).finalState = some s →
        s.equalizerController = false ∧ s.registeredWithController = false) ∧
    (∀ s, (create pNull deps env).result = some s →
      s.configuration = true ∧ s.equalizerController = true ∧ s.capabilityAgent = true ∧
      s.registeredWithRegistrar = true ∧ s.registeredWithController = true ∧
      s.engineInterfaceSet = true) := by
  rcases deps with ⟨d1, d2, d3, d4, d5, d6⟩
  rcases env with ⟨e1, e2, e3⟩
  revert d1 d2 d3 d4 d5 d6 e1 e2 e3 pNull
  decide

/-- Witness for C6: the Capability Agent factory fails after the
Manager was created; construction fails, the rollback shutdown runs,
and the final state holds no live Manager. -/
theorem create_rollback_witness :
    ((create false (InitDeps.mk false false false false false false)
        (InitEnv.mk false false true)).result.isSome = true ↔
      ((false : Bool) = false ∧ (false : Bool) = false ∧ (false : Bool) = false ∧
        (false : Bool) = false ∧ (false : Bool) = false ∧ (true : Bool) = false)) ∧
    ((create false (InitDeps.mk false false false false false false)
        (InitEnv.mk false false true)).result = none → (false : Bool) = false →
      (create false (InitDeps.mk false false false false false false)
        (InitEnv.mk false false true)).shutdownInvoked = true ∧
      ∀ s, (create false (InitDeps.mk false false false false false false)
          (InitEnv.mk false false true)).finalState = some s →
        s.equalizerController = false ∧ s.registeredWithController = false) ∧
    (∀ s, (create false (InitDeps.mk false false false false false false)
        (InitEnv.mk false false true)).result = some s →
      s.configuration = true ∧ s.equalizerController = true ∧ s.capabilityAgent = true ∧
      s.registeredWithRegistrar = true ∧ s.registeredWithController = true ∧
      s.engineInterfaceSet = true) :=
  create_rollback false (InitDeps.mk false false false false false false)
    (InitEnv.mk false false true)

/-- Claim C10: a null capabilities registrar or delegate makes
`initialize` return `false` with no sub-component constructed (the
incoming state is returned untouched), and the remaining four
dependency references are never null-checked by the bridge — the
outcome is invariant under their nullness. -/
theorem initializeBridge_null_checks (deps deps' : InitDeps) (env : InitEnv) (s : BridgeState) :
    ((deps.capabilitiesRegistrarNull = true ∨ deps.capabilitiesDelegateNull = true) →
      initializeBridge deps env s = (false, s)) ∧
    (deps'.capabilitiesRegistrarNull = deps.capabilitiesRegistrarNull →
      deps'.capabilitiesDelegateNull = deps.capabilitiesDelegateNull →
      initializeBridge deps' env s = initializeBridge deps env s) := by
  rcases deps with ⟨d1, d2, d3, d4, d5, d6⟩
  rcases deps' with ⟨f1, f2, f3, f4, f5, f6⟩
  constructor
  · rintro (h | h)
    · simp only at h
      subst h
      rfl
    · simp only at h
      subst h
      cases d1 <;> rfl
  · intro h1 h2
    simp only at h1 h2
    subst h1 h2
    rfl

/-- Witness for C10: null delegate with non-null everything else, and a
second dependency tuple differing in all four unchecked references. -/
theorem initializeBridge_null_checks_witness :
    (((InitDeps.mk false true false false false false).capabilitiesRegistrarNull = true ∨
      (InitDeps.mk false true false false false false).capabilitiesDelegateNull = true) ∧
      initializeBridge (InitDeps.mk false true false false false false)
        (InitEnv.mk false false false)
        (BridgeState.mk true false false false false false false false) =
        (false, BridgeState.mk true false false false false false false false)) ∧
    ((InitDeps.mk false true true true true true).capabilitiesRegistrarNull =
        (InitDeps.mk false true false false false false).capabilitiesRegistrarNull ∧
      (InitDeps.mk false true true true true true).capabilitiesDelegateNull =
        (InitDeps.mk false true false false false false).capabilitiesDelegateNull ∧
      initializeBridge (InitDeps.mk false true true true true true)
        (InitEnv.mk false false false)
        (BridgeState.mk true false false false false false false false) =
        initializeBridge (InitDeps.mk false true false false false false)
          (InitEnv.mk false false false)
          (BridgeState.mk true false false false false false false false)) :=
  ⟨⟨Or.inr rfl,
    (initializeBridge_null_checks (InitDeps.mk false true false false false false)
      (InitDeps.mk false true true true true true) (InitEnv.mk false false false)
      (BridgeState.mk true false false false false false false false)).1 (Or.inr rfl)⟩,
    rfl, rfl,
    (initializeBridge_null_checks (InitDeps.mk false true false false false false)
      (InitDeps.mk false true true true true true) (InitEnv.mk false false false)
      (BridgeState.mk true false false false false false false false)).2 rfl rfl⟩
